import Mathlib

/-
  Verification development for the Digital Collection Uptime Monitor
  (src/monitor.py, class DigitalCollectionMonitor).

  Modelling conventions:
  - Python floats (wall-clock seconds, percentages) are modelled by rationals;
    Python round(x, 2) is modelled by round2 below.
  - SQLite TEXT timestamps (datetime.isoformat strings, compared
    lexicographically, which is chronological for a fixed format) are modelled
    by naturals compared with the usual order.
  - A database row of the monitoring_results table and the dict produced by
    check_collection carry the same fields, so both are modelled by ProbeResult;
    the store is a list of rows, the implicit autoincrement id being the
    position in the list.
  - SQL GROUP BY / ORDER BY collection_name is modelled by deduplicating the
    collection names and sorting them with insertion sort, and aggregating the
    rows of each name; SQL AVG ignores NULL values and is NULL when every value
    is NULL, which filterMap captures.
-/

namespace Monitor

/-- Python round(x, 2): rounding to two decimal places. -/
def round2 (q : ℚ) : ℚ := (round (q * 100) : ℤ) / 100

/-- One probe observation, as built by check_collection (lines 81-90 of
src/monitor.py) and as stored in the monitoring_results table. -/
structure ProbeResult where
  collection_name : String
  url : String
  timestamp : ℕ
  is_accessible : Bool
  status_code : Option ℤ
  response_time : Option ℚ
  content_length : Option ℕ
  error_message : Option String
  deriving DecidableEq, Repr

/-- A Python exception as seen by the except-chain of check_collection
(lines 105-112): the flags record which requests exception classes the raised
object belongs to (the classes overlap: requests.exceptions.Timeout and
requests.exceptions.ConnectionError are both subclasses of RequestException,
and ConnectTimeout is both a ConnectionError and a Timeout), and msg is the
str() of the exception. -/
structure PyExc where
  is_timeout : Bool
  is_connection_error : Bool
  is_request_error : Bool
  msg : String
  deriving DecidableEq, Repr

/-- The outcome of the single session.get call of check_collection (line 94):
either a completed HTTP response with its status code, elapsed wall-clock time
and body length, or a raised exception. -/
inductive ProbeOutcome where
  | response (status_code : ℤ) (elapsed : ℚ) (content_length : ℕ)
  | exc (e : PyExc)
  deriving DecidableEq, Repr

/-- The except-chain of check_collection (lines 105-112): the first matching
handler wins, in source order Timeout, ConnectionError, RequestException,
Exception. -/
def classify_error (e : PyExc) : String :=
  if e.is_timeout then "Request timeout"
  else if e.is_connection_error then "Connection error"
  else if e.is_request_error then e.msg
  else "Unexpected error: " ++ e.msg

/-- check_collection (lines 79-114). The result dict starts with all optional
fields None and is_accessible False (lines 81-90); on a completed response the
status code, rounded response time and content length are recorded and
is_accessible is set to 200 <= status_code < 400, with error_message
"HTTP status" when not accessible (lines 97-103); on an exception the
except-chain fills only error_message (lines 105-112). The timeout argument
only bounds the network call, so here it only influences which outcome can
occur; ts is the datetime.now() instant of line 84. -/
def check_collection (name url : String) (ts timeout : ℕ) (o : ProbeOutcome) :
    ProbeResult :=
  match o with
  | .response sc el cl =>
      let acc := decide (200 ≤ sc ∧ sc < 400)
      { collection_name := name
        url := url
        timestamp := ts
        is_accessible := acc
        status_code := some sc
        response_time := some (round2 el)
        content_length := some cl
        error_message := if acc then none else some ("HTTP " ++ toString sc) }
  | .exc e =>
      { collection_name := name
        url := url
        timestamp := ts
        is_accessible := false
        status_code := none
        response_time := none
        content_length := none
        error_message := some (classify_error e) }

/-- monitor_all_collections (lines 116-141). The futures dict holds one future
per (name, url) pair of the targets dict; as_completed yields those futures in
some completion order, modelled by the list completed, which the caller
constrains to be a permutation of the targets. Since check_collection catches
every exception, future.result() never raises and each completed future
appends exactly one result (lines 129-131); max_workers only bounds how many
probes are in flight at once and does not affect the collected results. -/
def monitor_all_collections (max_workers : ℕ) (completed : List (String × String))
    (outcome : String → String → ProbeOutcome) (ts timeout : ℕ) :
    List ProbeResult :=
  completed.map (fun t => check_collection t.1 t.2 ts timeout (outcome t.1 t.2))

/-- Rows of the store that carry the given collection name (the rows of one
GROUP BY collection_name group). -/
def rowsFor (name : String) (rows : List ProbeResult) : List ProbeResult :=
  rows.filter (fun r => r.collection_name = name)

/-- The distinct collection names present in a list of rows, in first-seen
order (the groups of GROUP BY collection_name). -/
def distinctNames (rows : List ProbeResult) : List String :=
  (rows.map (fun r => r.collection_name)).dedup

/-- The distinct collection names sorted ascending (ORDER BY collection_name
over the grouped output). -/
def sortedNames (rows : List ProbeResult) : List String :=
  List.insertionSort (fun a b => a ≤ b) (distinctNames rows)

/-- SQL MAX(timestamp) over a group of rows (the group is never empty when it
comes from GROUP BY, so the 0 default is never the answer there). -/
def maxTimestamp (rows : List ProbeResult) : ℕ :=
  (rows.map (fun r => r.timestamp)).foldr max 0

/-- The subquery of get_current_status (lines 177-181):
SELECT MAX(timestamp) FROM monitoring_results GROUP BY collection_name, i.e.
one maximal timestamp per distinct collection name, as a list of values that
the outer IN tests membership in. -/
def maxTimestampsPerName (rows : List ProbeResult) : List ℕ :=
  (distinctNames rows).map (fun n => maxTimestamp (rowsFor n rows))

/-- Ordering of result rows by collection name (ORDER BY collection_name of
line 182). -/
def byNameRel (a b : ProbeResult) : Prop :=
  a.collection_name ≤ b.collection_name

instance : DecidableRel byNameRel :=
  fun a b => inferInstanceAs (Decidable (a.collection_name ≤ b.collection_name))

/-- get_current_status (lines 168-198): the rows whose timestamp is a member
of the set of per-name maximal timestamps, ordered by collection_name. Note
that the SQL IN test does not relate the collection of the row to the group the
maximal timestamp came from. -/
def get_current_status (rows : List ProbeResult) : List ProbeResult :=
  List.insertionSort byNameRel
    (rows.filter (fun r => r.timestamp ∈ maxTimestampsPerName rows))

/-- One entry of the stats dict built by get_uptime_stats (lines 222-227). -/
structure Stats where
  uptime_percent : ℚ
  total_checks : ℕ
  successful_checks : ℕ
  avg_response_time : Option ℚ
  deriving DecidableEq, Repr

/-- The WHERE timestamp > ? filter of get_uptime_stats (line 213), with the
instant since standing for the datetime.now() - timedelta(hours=hours) value
computed at line 205. -/
def historyWindow (since : ℕ) (rows : List ProbeResult) : List ProbeResult :=
  rows.filter (fun r => since < r.timestamp)

/-- The non-NULL response_time values of a group of rows, which SQL AVG
averages over (AVG ignores NULLs and is NULL when every value is NULL). -/
def presentTimes (rows : List ProbeResult) : List ℚ :=
  rows.filterMap (fun r => r.response_time)

/-- The aggregation of one GROUP BY collection_name group in get_uptime_stats:
COUNT(*), SUM(CASE WHEN is_accessible THEN 1 ELSE 0 END), AVG(response_time)
(lines 208-211), then the Python post-processing of lines 220-227:
uptime_percent = successful / total * 100 if total > 0 else 0 rounded to two
decimals, and round(avg_time, 2) if avg_time else None, where the condition
is falsy both for the SQL NULL and for an average equal to 0. -/
def aggregate (g : List ProbeResult) : Stats :=
  let total := g.length
  let succ := (g.filter (fun r => r.is_accessible)).length
  let times := presentTimes g
  let avg : Option ℚ :=
    if times.length = 0 then none else some (times.sum / (times.length : ℚ))
  { uptime_percent :=
      round2 (if 0 < total then (succ : ℚ) / (total : ℚ) * 100 else 0)
    total_checks := total
    successful_checks := succ
    avg_response_time :=
      match avg with
      | none => none
      | some a => if a = 0 then none else some (round2 a) }

/-- get_uptime_stats (lines 200-230): restrict the store to the rows with
timestamp strictly after since, group them by collection_name, aggregate each
group, and list the entries in ascending collection_name order (ORDER BY of
line 215; the Python dict preserves that insertion order). -/
def get_uptime_stats (since : ℕ) (rows : List ProbeResult) :
    List (String × Stats) :=
  let w := historyWindow since rows
  (sortedNames w).map (fun n => (n, aggregate (rowsFor n w)))

/-- Access to one entry of the stats mapping by collection name. -/
def lookupStats (name : String) : List (String × Stats) → Option Stats
  | [] => none
  | (n, st) :: l => if n = name then some st else lookupStats name l

/-- The data-model invariant on a single ProbeResult record: accessibility
agrees with a present in-range status code and with the absence of an error
message. -/
def validProbeResult (r : ProbeResult) : Prop :=
  (r.is_accessible = true ↔ ∃ sc : ℤ, r.status_code = some sc ∧ 200 ≤ sc ∧ sc < 400) ∧
  (r.is_accessible = true ↔ r.error_message = none)

/-- Store exhibiting the timestamp-collision behaviour of get_current_status:
the single (hence maximal) timestamp 2 of collection A coincides with a stale
timestamp of collection B, whose own maximum is 3. -/
def exampleStoreC2 : List ProbeResult :=
  [ { collection_name := "A", url := "ua", timestamp := 2, is_accessible := true,
      status_code := some 200, response_time := none, content_length := none,
      error_message := none },
    { collection_name := "B", url := "ub", timestamp := 2, is_accessible := true,
      status_code := some 200, response_time := none, content_length := none,
      error_message := none },
    { collection_name := "B", url := "ub", timestamp := 3, is_accessible := false,
      status_code := some 500, response_time := none, content_length := none,
      error_message := some "HTTP 500" } ]

/-- A single accessible record for collection A at timestamp 5. -/
def rowC5 : ProbeResult :=
  { collection_name := "A", url := "ua", timestamp := 5, is_accessible := true,
    status_code := some 200, response_time := none, content_length := none,
    error_message := none }

/-- Store with one record for collection A at timestamp 5, used with a window
starting after it. -/
def exampleStoreC5 : List ProbeResult := [rowC5]

/-- Store with one in-window record for collection A whose response_time is
present and equal to 0 (a sub-5ms response rounds to 0.0 at line 98). -/
def exampleStoreC6 : List ProbeResult :=
  [ { collection_name := "A", url := "ua", timestamp := 5, is_accessible := true,
      status_code := some 200, response_time := some 0, content_length := some 10,
      error_message := none } ]

/-- A redirected but accessible record for collection B at timestamp 7. -/
def rowB1 : ProbeResult :=
  { collection_name := "B", url := "ub", timestamp := 7, is_accessible := true,
    status_code := some 301, response_time := some 2, content_length := some 5,
    error_message := none }

/-- An accessible record for collection A at timestamp 5 taking one second. -/
def rowA1 : ProbeResult :=
  { collection_name := "A", url := "ua", timestamp := 5, is_accessible := true,
    status_code := some 200, response_time := some 1, content_length := some 9,
    error_message := none }

/-- A timed-out record for collection A at timestamp 6. -/
def rowA2 : ProbeResult :=
  { collection_name := "A", url := "ua", timestamp := 6, is_accessible := false,
    status_code := none, response_time := none, content_length := none,
    error_message := some "Request timeout" }

/-- Store with two in-window records for collection A (one failed) and one for
collection B, used to instantiate the aggregation theorems. -/
def exampleStoreW : List ProbeResult := [rowB1, rowA1, rowA2]

/-- The same store with the first two records exchanged: a permutation of
exampleStoreW. -/
def exampleStoreWsw : List ProbeResult := [rowA1, rowB1, rowA2]

/-- check_collection carries its name, url and timestamp inputs through to the
result unchanged, whatever the outcome. -/
theorem check_collection_fields (name url : String) (ts timeout : ℕ)
    (o : ProbeOutcome) :
    (check_collection name url ts timeout o).collection_name = name ∧
    (check_collection name url ts timeout o).url = url ∧
    (check_collection name url ts timeout o).timestamp = ts := by
  cases o <;> exact ⟨rfl, rfl, rfl⟩

/-- C1: for every ProbeResult built by check_collection, is_accessible is true
iff the status code is present and lies in 200..399, iff the error message is
null; and an inaccessible result always carries an error message. -/
theorem probe_accessible_iff (name url : String) (ts timeout : ℕ)
    (o : ProbeOutcome) :
    ((check_collection name url ts timeout o).is_accessible = true ↔
      ∃ sc : ℤ, (check_collection name url ts timeout o).status_code = some sc ∧
        200 ≤ sc ∧ sc < 400) ∧
    ((check_collection name url ts timeout o).is_accessible = true ↔
      (check_collection name url ts timeout o).error_message = none) ∧
    ((check_collection name url ts timeout o).is_accessible = false →
      ((check_collection name url ts timeout o).error_message).isSome = true) := by
  cases o with
  | response sc el cl =>
      by_cases h : 200 ≤ sc ∧ sc < 400 <;>
        simp [check_collection, h]
  | exc e => simp [check_collection]

/-- Concrete instantiation of probe_accessible_iff at a timeout failure. -/
theorem probe_accessible_iff_wit :
    ((check_collection "A" "ua" 0 10 (.exc ⟨true, false, false, "m"⟩)).is_accessible = true ↔
      ∃ sc : ℤ,
        (check_collection "A" "ua" 0 10 (.exc ⟨true, false, false, "m"⟩)).status_code = some sc ∧
        200 ≤ sc ∧ sc < 400) ∧
    ((check_collection "A" "ua" 0 10 (.exc ⟨true, false, false, "m"⟩)).is_accessible = true ↔
      (check_collection "A" "ua" 0 10 (.exc ⟨true, false, false, "m"⟩)).error_message = none) ∧
    ((check_collection "A" "ua" 0 10 (.exc ⟨true, false, false, "m"⟩)).is_accessible = false →
      ((check_collection "A" "ua" 0 10 (.exc ⟨true, false, false, "m"⟩)).error_message).isSome = true) :=
  probe_accessible_iff "A" "ua" 0 10 (.exc ⟨true, false, false, "m"⟩)

/-- C4: a probe attempt that raises is classified with the priority of the
except-chain, first timeout, then connection failure, then any other request
error with the underlying description, then unexpected errors with a prefixed
description; every such failure leaves status_code, response_time and
content_length absent and is_accessible false. -/
theorem probe_failure_classes (name url : String) (ts timeout : ℕ) (e : PyExc) :
    (check_collection name url ts timeout (.exc e)).status_code = none ∧
    (check_collection name url ts timeout (.exc e)).response_time = none ∧
    (check_collection name url ts timeout (.exc e)).content_length = none ∧
    (check_collection name url ts timeout (.exc e)).is_accessible = false ∧
    (e.is_timeout = true →
      (check_collection name url ts timeout (.exc e)).error_message =
        some "Request timeout") ∧
    (e.is_timeout = false → e.is_connection_error = true →
      (check_collection name url ts timeout (.exc e)).error_message =
        some "Connection error") ∧
    (e.is_timeout = false → e.is_connection_error = false →
        e.is_request_error = true →
      (check_collection name url ts timeout (.exc e)).error_message =
        some e.msg) ∧
    (e.is_timeout = false → e.is_connection_error = false →
        e.is_request_error = false →
      (check_collection name url ts timeout (.exc e)).error_message =
        some ("Unexpected error: " ++ e.msg)) := by
  refine ⟨rfl, rfl, rfl, rfl, ?_, ?_, ?_, ?_⟩
  · intro h1
    simp [check_collection, classify_error, h1]
  · intro h1 h2
    simp [check_collection, classify_error, h1, h2]
  · intro h1 h2 h3
    simp [check_collection, classify_error, h1, h2, h3]
  · intro h1 h2 h3
    simp [check_collection, classify_error, h1, h2, h3]

/-- Concrete instantiation of probe_failure_classes at a connection failure
(DNS failure, refused connection or TLS failure). -/
theorem probe_failure_classes_wit :
    (check_collection "A" "ua" 0 10 (.exc ⟨false, true, true, "m"⟩)).error_message =
      some "Connection error" :=
  (probe_failure_classes "A" "ua" 0 10 ⟨false, true, true, "m"⟩).2.2.2.2.2.1 rfl rfl

/-- C8: check_collection is total: every probe outcome yields a ProbeResult
that carries the probed name, url and instant and satisfies the record
invariant; no call path escapes without such a result. -/
theorem probe_total (name url : String) (ts timeout : ℕ) (o : ProbeOutcome) :
    ∃ r : ProbeResult, check_collection name url ts timeout o = r ∧
      r.collection_name = name ∧ r.url = url ∧ r.timestamp = ts ∧
      validProbeResult r := by
  refine ⟨check_collection name url ts timeout o, rfl, ?_, ?_, ?_, ?_⟩
  · cases o <;> rfl
  · cases o <;> rfl
  · cases o <;> rfl
  · cases o with
    | response sc el cl =>
        by_cases h : 200 ≤ sc ∧ sc < 400 <;>
          simp [validProbeResult, check_collection, h]
    | exc e => simp [validProbeResult, check_collection]

/-- Concrete instantiation of probe_total at a completed HTTP 500 response. -/
theorem probe_total_wit :
    ∃ r : ProbeResult,
      check_collection "A" "ua" 0 10 (.response 500 1 4) = r ∧
      r.collection_name = "A" ∧ r.url = "ua" ∧ r.timestamp = 0 ∧
      validProbeResult r :=
  probe_total "A" "ua" 0 10 (.response 500 1 4)

/-- In a duplicate-free list, the number of elements equal to a given member
is exactly one. -/
theorem countP_eq_one_of_nodup {α : Type} [DecidableEq α] {l : List α} {a : α}
    (hn : l.Nodup) (ha : a ∈ l) : l.countP (fun s => s = a) = 1 := by
  induction l with
  | nil => cases ha
  | cons b l ih =>
      have hb : b ∉ l := (List.nodup_cons.mp hn).1
      have hl : l.Nodup := (List.nodup_cons.mp hn).2
      rcases List.mem_cons.mp ha with h | h
      · subst h
        have hz : l.countP (fun s => s = a) = 0 := by
          refine List.countP_eq_zero.mpr ?_
          intro x hx
          simp only [decide_eq_true_eq]
          intro hxa
          exact hb (hxa ▸ hx)
        simp [List.countP_cons, hz]
      · have hba : b ≠ a := by
          intro hba
          exact hb (hba ▸ h)
        simp [List.countP_cons, ih hl h, hba]

/-- C3: the scheduler collects exactly one result per target: for any
concurrency bound of at least one, any completion order of the futures and
any probe outcomes, including all-failing ones, the number of collected
results equals the number of targets and each target name is carried by
exactly one result. -/
theorem scheduler_returns_all (k : ℕ) (hk : 1 ≤ k)
    (targets completed : List (String × String))
    (outcome : String → String → ProbeOutcome) (ts timeout : ℕ)
    (hperm : completed.Perm targets)
    (hnodup : (targets.map Prod.fst).Nodup) :
    (monitor_all_collections k completed outcome ts timeout).length =
      targets.length ∧
    ∀ t ∈ targets,
      ((monitor_all_collections k completed outcome ts timeout).filter
        (fun r => r.collection_name = t.1)).length = 1 := by
  constructor
  · simpa [monitor_all_collections] using hperm.length_eq
  · intro t ht
    rw [← List.countP_eq_length_filter]
    unfold monitor_all_collections
    rw [List.countP_map]
    have h1 :
        completed.countP
          ((fun r : ProbeResult => decide (r.collection_name = t.1)) ∘
            (fun t' => check_collection t'.1 t'.2 ts timeout (outcome t'.1 t'.2)))
        = completed.countP (fun t' => decide (t'.1 = t.1)) := by
      refine List.countP_congr ?_
      intro t' _
      simp [(check_collection_fields t'.1 t'.2 ts timeout (outcome t'.1 t'.2)).1]
    rw [h1, hperm.countP_eq]
    have h2 :
        targets.countP (fun t' => decide (t'.1 = t.1))
        = (targets.map Prod.fst).countP (fun s => decide (s = t.1)) := by
      rw [List.countP_map]
      rfl
    rw [h2]
    exact countP_eq_one_of_nodup hnodup (List.mem_map_of_mem Prod.fst ht)

/-- Concrete instantiation of scheduler_returns_all: two targets, every probe
raising a timeout, collected in reversed completion order under a concurrency
bound of one. -/
theorem scheduler_returns_all_wit :
    (monitor_all_collections 1 [("B", "ub"), ("A", "ua")]
        (fun _ _ => .exc ⟨true, false, false, "m"⟩) 0 10).length = 2 ∧
    ((monitor_all_collections 1 [("B", "ub"), ("A", "ua")]
        (fun _ _ => .exc ⟨true, false, false, "m"⟩) 0 10).filter
      (fun r => r.collection_name = "A")).length = 1 := by
  have h := scheduler_returns_all 1 (le_refl 1)
    [("A", "ua"), ("B", "ub")] [("B", "ub"), ("A", "ua")]
    (fun _ _ => .exc ⟨true, false, false, "m"⟩) 0 10
    (by decide) (by decide)
  exact ⟨h.1, h.2 ("A", "ua") (by decide)⟩

/-- C2 fails on the code: at the store exampleStoreC2 the query of
get_current_status returns three records over two distinct collection names,
two of them for collection B, because the stale B record at timestamp 2
passes the IN test through the maximal timestamp of collection A. -/
theorem current_status_duplicate_eval :
    (distinctNames exampleStoreC2).length = 2 ∧
    (get_current_status exampleStoreC2).length = 3 ∧
    ((get_current_status exampleStoreC2).filter
      (fun r => r.collection_name = "B")).length = 2 := by
  refine ⟨by decide, ?_, ?_⟩
  · unfold get_current_status
    rw [(List.perm_insertionSort byNameRel _).length_eq]
    decide
  · unfold get_current_status
    rw [← List.countP_eq_length_filter,
        (List.perm_insertionSort byNameRel _).countP_eq,
        List.countP_eq_length_filter]
    decide

/-- lookupStats over the tabulation of a duplicate-free name list finds
exactly the tabulated entry. -/
theorem lookupStats_map (l : List String) (f : String → Stats) (n : String)
    (hn : l.Nodup) :
    lookupStats n (l.map (fun m => (m, f m))) =
      if n ∈ l then some (f n) else none := by
  induction l with
  | nil => simp [lookupStats]
  | cons b l ih =>
      have hl := (List.nodup_cons.mp hn).2
      by_cases h : b = n
      · subst h
        simp [lookupStats]
      · have hnb : ¬(n = b) := fun hh => h hh.symm
        simp [lookupStats, h, ih hl, List.mem_cons, hnb]

/-- A collection name occurs among the sorted group names exactly when its
group of rows is nonempty. -/
theorem mem_sortedNames_iff (rows : List ProbeResult) (n : String) :
    n ∈ sortedNames rows ↔ rowsFor n rows ≠ [] := by
  unfold sortedNames
  rw [(List.perm_insertionSort _ _).mem_iff]
  unfold distinctNames
  rw [List.mem_dedup, List.mem_map]
  constructor
  · rintro ⟨r, hr, hrn⟩
    intro hnil
    have hmem : r ∈ rowsFor n rows := by
      unfold rowsFor
      rw [List.mem_filter]
      exact ⟨hr, by simp [hrn]⟩
    rw [hnil] at hmem
    cases hmem
  · intro hne
    rcases List.exists_mem_of_ne_nil _ hne with ⟨r, hr⟩
    unfold rowsFor at hr
    rw [List.mem_filter] at hr
    exact ⟨r, hr.1, by simpa using hr.2⟩

/-- The sorted group names are duplicate-free. -/
theorem nodup_sortedNames (rows : List ProbeResult) :
    (sortedNames rows).Nodup := by
  unfold sortedNames
  exact ((List.perm_insertionSort _ _).nodup_iff).mpr (List.nodup_dedup _)

/-- The stats mapping has an entry for a collection name exactly when at
least one of its records lies in the window, and the entry aggregates its
in-window group. -/
theorem lookupStats_get_uptime_stats (since : ℕ) (rows : List ProbeResult)
    (n : String) :
    lookupStats n (get_uptime_stats since rows) =
      if rowsFor n (historyWindow since rows) ≠ [] then
        some (aggregate (rowsFor n (historyWindow since rows)))
      else none := by
  simp only [get_uptime_stats]
  rw [lookupStats_map _ _ _ (nodup_sortedNames _)]
  by_cases h : rowsFor n (historyWindow since rows) ≠ []
  · rw [if_pos ((mem_sortedNames_iff _ _).mpr h), if_pos h]
  · rw [if_neg (fun hm => h ((mem_sortedNames_iff _ _).mp hm)), if_neg h]

/-- An entry found by lookupStats is an entry of the mapping. -/
theorem mem_of_lookupStats {n : String} {st : Stats}
    {l : List (String × Stats)} (h : lookupStats n l = some st) :
    (n, st) ∈ l := by
  induction l with
  | nil => cases h
  | cons p l ih =>
      obtain ⟨m, st'⟩ := p
      by_cases hm : m = n
      · subst hm
        rw [lookupStats, if_pos rfl] at h
        cases h
        exact List.mem_cons_self _ _
      · rw [lookupStats, if_neg hm] at h
        exact List.mem_cons_of_mem _ (ih h)

/-- C7: the aggregation window of get_uptime_stats selects exactly the
records with timestamp strictly greater than since, and a record whose
timestamp equals since is excluded. -/
theorem history_window_strict (rows : List ProbeResult) (since : ℕ)
    (r : ProbeResult) :
    (r ∈ historyWindow since rows ↔ r ∈ rows ∧ since < r.timestamp) ∧
    (r.timestamp = since → r ∉ historyWindow since rows) := by
  constructor
  · simp [historyWindow, List.mem_filter]
  · intro h
    simp [historyWindow, List.mem_filter, h]

/-- Concrete instantiation of history_window_strict: the record at
timestamp 5 is excluded from the window starting at 5. -/
theorem history_window_strict_wit :
    rowC5 ∉ historyWindow 5 exampleStoreC5 :=
  (history_window_strict exampleStoreC5 5 rowC5).2 rfl

/-- C5 as stated fails: collection A has a record in the store but none with
timestamp after 10, and the stats mapping then has no entry at all for A, so
no uptime_percent of 0 is reported. -/
theorem uptime_zero_window_cex :
    exampleStoreC5 ≠ [] ∧
    rowsFor "A" (historyWindow 10 exampleStoreC5) = [] ∧
    get_uptime_stats 10 exampleStoreC5 = [] ∧
    lookupStats "A" (get_uptime_stats 10 exampleStoreC5) = none := by
  refine ⟨by decide, rfl, rfl, rfl⟩

/-- C5 amended: for every collection with N greater than or equal to 1
records in the window of which S are accessible, the stats entry reports
uptime_percent equal to S divided by N times 100 rounded to two decimals,
together with those two counts; a collection with N equal to 0 has no entry
in the mapping at all, so nothing is reported for it rather than 0. -/
theorem uptime_percent_formula (rows : List ProbeResult) (since : ℕ)
    (name : String) :
    (0 < (rowsFor name (historyWindow since rows)).length →
      ∃ st, lookupStats name (get_uptime_stats since rows) = some st ∧
        st.uptime_percent =
          round2
            ((((rowsFor name (historyWindow since rows)).filter
                (fun r => r.is_accessible)).length : ℚ) /
              ((rowsFor name (historyWindow since rows)).length : ℚ) * 100) ∧
        st.total_checks = (rowsFor name (historyWindow since rows)).length ∧
        st.successful_checks =
          ((rowsFor name (historyWindow since rows)).filter
            (fun r => r.is_accessible)).length) ∧
    ((rowsFor name (historyWindow since rows)).length = 0 →
      lookupStats name (get_uptime_stats since rows) = none) := by
  constructor
  · intro hN
    have hne : rowsFor name (historyWindow since rows) ≠ [] :=
      List.length_pos.mp hN
    refine ⟨aggregate (rowsFor name (historyWindow since rows)), ?_, ?_, rfl, rfl⟩
    · rw [lookupStats_get_uptime_stats, if_pos hne]
    · simp only [aggregate]
      rw [if_pos hN]
  · intro hN
    have heq : rowsFor name (historyWindow since rows) = [] :=
      List.length_eq_zero.mp hN
    rw [lookupStats_get_uptime_stats, if_neg (by simp [heq])]

/-- Concrete instantiation of uptime_percent_formula: collection A has two
in-window records, one accessible, and its entry reports fifty percent
uptime and the two counts. -/
theorem uptime_percent_formula_wit :
    ∃ st, lookupStats "A" (get_uptime_stats 0 exampleStoreW) = some st ∧
      st.uptime_percent = round2 (((1 : ℕ) : ℚ) / ((2 : ℕ) : ℚ) * 100) ∧
      st.total_checks = 2 ∧ st.successful_checks = 1 := by
  have h := (uptime_percent_formula exampleStoreW 0 "A").1 (by decide)
  have hlen : (rowsFor "A" (historyWindow 0 exampleStoreW)).length = 2 := by
    decide
  have hsucc : ((rowsFor "A" (historyWindow 0 exampleStoreW)).filter
      (fun r => r.is_accessible)).length = 1 := by decide
  rw [hlen, hsucc] at h
  exact h

/-- C6 as stated fails: the single in-window record of collection A carries a
present response_time equal to 0, yet its stats entry reports
avg_response_time as absent. -/
theorem avg_response_time_zero_cex :
    presentTimes (rowsFor "A" (historyWindow 0 exampleStoreC6)) = [0] ∧
    ∃ st, lookupStats "A" (get_uptime_stats 0 exampleStoreC6) = some st ∧
      st.avg_response_time = none := by
  refine ⟨rfl, aggregate (rowsFor "A" (historyWindow 0 exampleStoreC6)), ?_, ?_⟩
  · rw [lookupStats_get_uptime_stats,
        if_pos (by decide : rowsFor "A" (historyWindow 0 exampleStoreC6) ≠ [])]
  · have hg : presentTimes (rowsFor "A" (historyWindow 0 exampleStoreC6)) = [0] := rfl
    simp only [aggregate, hg]
    norm_num

/-- C6 amended: for every collection with at least one record in the window,
the stats entry reports avg_response_time as the mean over the present
response_time values rounded to two decimals when that mean is nonzero, and
reports it absent when either no record in the window has a response_time or
the present response_time values sum to zero, since the falsy test of
line 226 also drops a zero average. -/
theorem avg_response_time_rule (rows : List ProbeResult) (since : ℕ)
    (name : String)
    (hN : 0 < (rowsFor name (historyWindow since rows)).length) :
    ∃ st, lookupStats name (get_uptime_stats since rows) = some st ∧
      ((presentTimes (rowsFor name (historyWindow since rows)) = [] ∨
          (presentTimes (rowsFor name (historyWindow since rows))).sum = 0) →
        st.avg_response_time = none) ∧
      (presentTimes (rowsFor name (historyWindow since rows)) ≠ [] →
        (presentTimes (rowsFor name (historyWindow since rows))).sum ≠ 0 →
        st.avg_response_time =
          some (round2
            ((presentTimes (rowsFor name (historyWindow since rows))).sum /
              ((presentTimes (rowsFor name (historyWindow since rows))).length : ℚ)))) := by
  have hne : rowsFor name (historyWindow since rows) ≠ [] :=
    List.length_pos.mp hN
  refine ⟨aggregate (rowsFor name (historyWindow since rows)), ?_, ?_, ?_⟩
  · rw [lookupStats_get_uptime_stats, if_pos hne]
  · intro hz
    rcases hz with hz | hz
    · simp only [aggregate]
      rw [if_pos (by rw [hz]; rfl)]
    · by_cases he : presentTimes (rowsFor name (historyWindow since rows)) = []
      · simp only [aggregate]
        rw [if_pos (by rw [he]; rfl)]
      · have hlen :
            (presentTimes (rowsFor name (historyWindow since rows))).length ≠ 0 :=
          fun h0 => he (List.length_eq_zero.mp h0)
        simp only [aggregate]
        rw [if_neg hlen]
        have hdiv :
            (presentTimes (rowsFor name (historyWindow since rows))).sum /
              ((presentTimes (rowsFor name (historyWindow since rows))).length : ℚ) = 0 := by
          rw [hz, zero_div]
        rw [hdiv]
        rfl
  · intro he hs
    have hlen :
        (presentTimes (rowsFor name (historyWindow since rows))).length ≠ 0 :=
      fun h0 => he (List.length_eq_zero.mp h0)
    simp only [aggregate]
    rw [if_neg hlen]
    have hdiv :
        (presentTimes (rowsFor name (historyWindow since rows))).sum /
          ((presentTimes (rowsFor name (historyWindow since rows))).length : ℚ) ≠ 0 := by
      rw [div_ne_zero_iff]
      exact ⟨hs, by exact_mod_cast hlen⟩
    exact if_neg hdiv

/-- Concrete instantiation of avg_response_time_rule: collection A has one
present response_time of one second among its two in-window records, and its
entry reports that mean rounded. -/
theorem avg_response_time_rule_wit :
    ∃ st, lookupStats "A" (get_uptime_stats 0 exampleStoreW) = some st ∧
      st.avg_response_time = some (round2 1) := by
  obtain ⟨st, h1, _, h3⟩ :=
    avg_response_time_rule exampleStoreW 0 "A" (by decide)
  refine ⟨st, h1, ?_⟩
  have hpt : presentTimes (rowsFor "A" (historyWindow 0 exampleStoreW)) = [1] := rfl
  rw [hpt] at h3
  have h4 := h3 (by simp) (by norm_num)
  rw [h4]
  norm_num

/-- The aggregation of a group only depends on the multiset of its rows. -/
theorem aggregate_perm {g1 g2 : List ProbeResult} (h : g1.Perm g2) :
    aggregate g1 = aggregate g2 := by
  have h1 := h.length_eq
  have h2 := (h.filter (fun r => r.is_accessible)).length_eq
  have hp : (presentTimes g1).Perm (presentTimes g2) := by
    unfold presentTimes
    exact h.filterMap (fun r => r.response_time)
  have h3 := hp.sum_eq
  have h4 := hp.length_eq
  simp only [aggregate]
  rw [h1, h2, h3, h4]

/-- The sorted group names only depend on the multiset of rows. -/
theorem sortedNames_perm_eq {l1 l2 : List ProbeResult} (h : l1.Perm l2) :
    sortedNames l1 = sortedNames l2 := by
  have hd : (distinctNames l1).Perm (distinctNames l2) := by
    unfold distinctNames
    exact (h.map (fun r => r.collection_name)).dedup
  have hp : (sortedNames l1).Perm (sortedNames l2) := by
    unfold sortedNames
    exact ((List.perm_insertionSort _ _).trans hd).trans
      (List.perm_insertionSort _ _).symm
  exact List.eq_of_perm_of_sorted hp
    (List.sorted_insertionSort _ _) (List.sorted_insertionSort _ _)

/-- The keys of the stats mapping are the sorted in-window group names. -/
theorem get_uptime_stats_keys (since : ℕ) (rows : List ProbeResult) :
    (get_uptime_stats since rows).map Prod.fst =
      sortedNames (historyWindow since rows) := by
  simp only [get_uptime_stats, List.map_map]
  exact List.map_id _

/-- C9: get_uptime_stats is a pure function of the history it reads: the same
input gives the same output, any reordering of the input records gives the
identical output, and the output entries are sorted ascending by
collection_name with no duplicate names. -/
theorem uptime_stats_pure (since : ℕ) (h1 h2 : List ProbeResult)
    (hp : h1.Perm h2) :
    get_uptime_stats since h1 = get_uptime_stats since h1 ∧
    get_uptime_stats since h1 = get_uptime_stats since h2 ∧
    ((get_uptime_stats since h1).map Prod.fst).Sorted (fun a b => a ≤ b) ∧
    ((get_uptime_stats since h1).map Prod.fst).Nodup := by
  have hw : (historyWindow since h1).Perm (historyWindow since h2) := by
    unfold historyWindow
    exact hp.filter (fun r => decide (since < r.timestamp))
  refine ⟨rfl, ?_, ?_, ?_⟩
  · simp only [get_uptime_stats]
    rw [sortedNames_perm_eq hw]
    refine List.map_congr_left ?_
    intro n _
    have hg : (rowsFor n (historyWindow since h1)).Perm
        (rowsFor n (historyWindow since h2)) := by
      unfold rowsFor
      exact hw.filter (fun r => decide (r.collection_name = n))
    rw [aggregate_perm hg]
  · rw [get_uptime_stats_keys]
    unfold sortedNames
    exact List.sorted_insertionSort _ _
  · rw [get_uptime_stats_keys]
    exact nodup_sortedNames _

/-- Concrete instantiation of uptime_stats_pure: exchanging the first two
records of the store leaves the stats mapping unchanged. -/
theorem uptime_stats_pure_wit :
    get_uptime_stats 0 exampleStoreW = get_uptime_stats 0 exampleStoreWsw :=
  (uptime_stats_pure 0 exampleStoreW exampleStoreWsw
    (List.Perm.swap rowA1 rowB1 [rowA2])).2.1

/-- Rounding to two decimals preserves nonnegativity. -/
theorem round2_nonneg {q : ℚ} (h : 0 ≤ q) : 0 ≤ round2 q := by
  unfold round2
  have h1 : (0 : ℤ) ≤ round (q * 100) := by
    have h2 : round (0 : ℚ) ≤ round (q * 100) := by
      rw [round_eq, round_eq]
      exact Int.floor_mono (by linarith)
    simpa using h2
  have h3 : (0 : ℚ) ≤ (round (q * 100) : ℤ) := by exact_mod_cast h1
  positivity

/-- Rounding to two decimals preserves the upper bound of 100. -/
theorem round2_le_100 {q : ℚ} (h : q ≤ 100) : round2 q ≤ 100 := by
  unfold round2
  have h1 : round (q * 100) ≤ (10000 : ℤ) := by
    have h2 : round (q * 100) ≤ round ((10000 : ℚ)) := by
      rw [round_eq, round_eq]
      exact Int.floor_mono (by linarith)
    have h3 : round ((10000 : ℚ)) = 10000 := by
      rw [round_eq]
      norm_num
    rw [h3] at h2
    exact h2
  rw [div_le_iff₀ (by norm_num : (0 : ℚ) < 100)]
  calc ((round (q * 100) : ℤ) : ℚ) ≤ ((10000 : ℤ) : ℚ) := by exact_mod_cast h1
    _ = 100 * 100 := by norm_num

/-- C10: every entry of the stats mapping has total_checks at least one,
successful_checks at most total_checks, an uptime_percent between 0 and 100,
and an uptime_percent computed by the division formula: the total = 0
fallback of line 221 is unreachable because an entry exists only when at
least one record of its collection lies in the window. -/
theorem stats_entry_bounds (rows : List ProbeResult) (since : ℕ)
    (p : String × Stats) (hp : p ∈ get_uptime_stats since rows) :
    1 ≤ p.2.total_checks ∧
    p.2.successful_checks ≤ p.2.total_checks ∧
    0 ≤ p.2.uptime_percent ∧ p.2.uptime_percent ≤ 100 ∧
    p.2.uptime_percent =
      round2 ((p.2.successful_checks : ℚ) / (p.2.total_checks : ℚ) * 100) := by
  simp only [get_uptime_stats, List.mem_map] at hp
  obtain ⟨n, hn, hpe⟩ := hp
  have hne : rowsFor n (historyWindow since rows) ≠ [] :=
    (mem_sortedNames_iff _ _).mp hn
  have hN : 0 < (rowsFor n (historyWindow since rows)).length :=
    List.length_pos.mpr hne
  have hS : ((rowsFor n (historyWindow since rows)).filter
      (fun r => r.is_accessible)).length ≤
      (rowsFor n (historyWindow since rows)).length :=
    List.length_filter_le _ _
  have hfrac :
      0 ≤ (((rowsFor n (historyWindow since rows)).filter
          (fun r => r.is_accessible)).length : ℚ) /
        ((rowsFor n (historyWindow since rows)).length : ℚ) * 100 := by
    positivity
  have hfrac2 :
      (((rowsFor n (historyWindow since rows)).filter
          (fun r => r.is_accessible)).length : ℚ) /
        ((rowsFor n (historyWindow since rows)).length : ℚ) * 100 ≤ 100 := by
    have hd : (((rowsFor n (historyWindow since rows)).filter
          (fun r => r.is_accessible)).length : ℚ) /
        ((rowsFor n (historyWindow since rows)).length : ℚ) ≤ 1 := by
      rw [div_le_one (by exact_mod_cast hN)]
      exact_mod_cast hS
    nlinarith
  subst hpe
  refine ⟨hN, hS, ?_, ?_, ?_⟩
  · show 0 ≤ (aggregate _).uptime_percent
    simp only [aggregate]
    rw [if_pos hN]
    exact round2_nonneg hfrac
  · show (aggregate _).uptime_percent ≤ 100
    simp only [aggregate]
    rw [if_pos hN]
    exact round2_le_100 hfrac2
  · show (aggregate _).uptime_percent = _
    simp only [aggregate]
    rw [if_pos hN]

/-- Concrete instantiation of stats_entry_bounds at the entry of collection A in
the stats mapping of exampleStoreW. -/
theorem stats_entry_bounds_wit :
    1 ≤ (aggregate (rowsFor "A" (historyWindow 0 exampleStoreW))).total_checks ∧
    (aggregate (rowsFor "A" (historyWindow 0 exampleStoreW))).successful_checks ≤
      (aggregate (rowsFor "A" (historyWindow 0 exampleStoreW))).total_checks ∧
    0 ≤ (aggregate (rowsFor "A" (historyWindow 0 exampleStoreW))).uptime_percent ∧
    (aggregate (rowsFor "A" (historyWindow 0 exampleStoreW))).uptime_percent ≤ 100 := by
  have hl := lookupStats_get_uptime_stats 0 exampleStoreW "A"
  rw [if_pos (by decide : rowsFor "A" (historyWindow 0 exampleStoreW) ≠ [])] at hl
  have hmem : ("A", aggregate (rowsFor "A" (historyWindow 0 exampleStoreW))) ∈
      get_uptime_stats 0 exampleStoreW := mem_of_lookupStats hl
  have h := stats_entry_bounds exampleStoreW 0 _ hmem
  exact ⟨h.1, h.2.1, h.2.2.1, h.2.2.2.1⟩

end Monitor
